import Mathlib

set_option maxHeartbeats 1000000

/-!
Shallow embedding of scripts/validate.py, the CDF validation entry point.

The filesystem visible to one run is modelled as the list of existing regular
files, each carried with its SHA-256 hex digest (the value `sha256_file` would
compute). Paths are written relative to the working directory, with '/'
separators and no './' prefix and no trailing slash, exactly the shape pathlib
produces for the paths the script manipulates. Outcomes of external effects the
script only observes (json.loads succeeding or raising, which top-level keys an
attestation has, whether cosign is on PATH, the exit status of a
`cosign verify-blob` subprocess, the size of `list(cdf_path.rglob('*cdf*'))`)
are inputs of the run environment.
-/

/-- Boolean test that string `a` is a leading segment of string `b`; models
Python `str.startswith`. -/
def strLeads (a b : String) : Bool := a.data.isPrefixOf b.data

/-- Models Python `str.lower` for the ASCII argument strings the script
lowercases. -/
def strLower (s : String) : String := String.mk (s.data.map Char.toLower)

/-- Boolean test that `needle` occurs contiguously inside the second list. -/
def subListChars (needle : List Char) : List Char → Bool
  | [] => needle.isEmpty
  | c :: cs => needle.isPrefixOf (c :: cs) || subListChars needle cs

/-- Models the Python substring test `needle in hay` on str values. -/
def strContainsSub (hay needle : String) : Bool := subListChars needle.data hay.data

/-- Characters after the last '/': models `Path(p).name` on normalized relative
paths. -/
def baseOf (p : String) : String :=
  String.mk ((p.data.reverse.takeWhile (fun c => c != '/')).reverse)

/-- Characters before the last '/' ("" when there is no slash). -/
def dirOf (p : String) : String :=
  String.mk (((p.data.reverse.dropWhile (fun c => c != '/')).drop 1).reverse)

/-- Models `Path(p).parent`: the directory part, or '.' for a bare file name. -/
def parentOf (p : String) : String := if dirOf p = "" then "." else dirOf p

/-- Models `str(Path(p) / child)` on normalized relative paths; joining onto
Path('.') yields just the child. -/
def pathJoin (p child : String) : String := if p = "." then child else p ++ "/" ++ child

/-- Lookup in the filesystem model: `some digest` when the regular file exists,
`none` otherwise. This combines the script's `p.exists()` membership test with
the digest `sha256_file(p)` would return. -/
def fileDigest (files : List (String × String)) (p : String) : Option String :=
  (files.find? (fun q => q.1 == p)).map (fun q => q.2)

/-- Models `Path(p).exists()` for the path shapes the script checks: '.' (the
working directory) exists, an existing regular file exists, and a directory
containing an existing file exists. -/
def pathExists (files : List (String × String)) (p : String) : Bool :=
  p == "." || files.any (fun q => q.1 == p) || files.any (fun q => strLeads (p ++ "/") q.1)

/-- Python truthiness of a pathlib path: PurePath defines no `__bool__`, so
`not cdf_path` at scripts/validate.py line 76 is False for every path value. -/
def pathTruthy (_p : String) : Bool := true

/-- Models `find_cdf_path` (scripts/validate.py lines 17-32). The Python
failure sentinel is `Path('')`, which the pathlib constructor normalizes to
`PosixPath('.')`; it is therefore rendered as "." here. -/
def find_cdf_path (files : List (String × String)) (explicit : String) : String :=
  if explicit = "" then
    match files.find? (fun q => baseOf q.1 == "cdf-meta.json") with
    | some q => parentOf q.1
    | none => "."
  else if (fileDigest files (pathJoin explicit "cdf-meta.json")).isSome then explicit
  else if (fileDigest files explicit).isSome && (baseOf explicit == "cdf-meta.json") then
    parentOf explicit
  else "."

/-- Whether path `p` lies under directory `cdf` (everything lies under "."). -/
def underCdf (cdf p : String) : Bool := if cdf = "." then true else strLeads (cdf ++ "/") p

/-- The path of `p` relative to `cdf`, for `p` under `cdf`. -/
def relTo (cdf p : String) : String := if cdf = "." then p else p.drop (cdf.length + 1)

/-- The `os.walk` root string for the directory holding the file at relative
path `rel` under `cdf`: os.walk joins its top argument with the relative
directory, and yields the top itself for files directly inside it. -/
def rootOf (cdf rel : String) : String :=
  if dirOf rel = "" then cdf else cdf ++ "/" ++ dirOf rel

/-- Models `list_tf_files` (scripts/validate.py lines 35-48): every file named
cdf-main.tf under `cdf` whose walk root does not contain '.git' and does
contain '/stable/' or '/unstable/', returned relative to `cdf`. -/
def list_tf_files (files : List (String × String)) (cdf : String) : List String :=
  (files.filter (fun q =>
      underCdf cdf q.1 &&
      !(strContainsSub (rootOf cdf (relTo cdf q.1)) ".git") &&
      (strContainsSub (rootOf cdf (relTo cdf q.1)) "/stable/" ||
        strContainsSub (rootOf cdf (relTo cdf q.1)) "/unstable/") &&
      (baseOf q.1 == "cdf-main.tf"))).map (fun q => relTo cdf q.1)

/-- One entry of the manifest's files list: the two fields the script reads,
each possibly absent in the JSON document. -/
structure Entry where
  name : Option String
  sha256 : Option String
deriving DecidableEq

/-- The value json.loads returns for cdf-meta.json, for dict-shaped documents:
whether it is truthy (a non-empty dict) and, when its 'files' key holds a list,
that list. `files = none` covers both a missing 'files' key and a non-list
value, matching the `isinstance(meta.get('files'), list)` guard. -/
structure MetaVal where
  truthy : Bool
  files : Option (List Entry)
deriving DecidableEq

/-- Observations for one `*.attestation.json` found by rglob: whether
json.loads (and the membership tests on its result) succeed, which of the four
required top-level fields are present, whether the companion .sig and .cert
files exist, and whether the external `cosign verify-blob` subprocess exits 0. -/
structure Attestation where
  parses : Bool
  fields : List String
  sigExists : Bool
  certExists : Bool
  verifyOk : Bool
deriving DecidableEq

/-- The command-line arguments of scripts/validate.py with their argparse
defaults (lines 64-73). -/
structure Args where
  cdfPath : String := ""
  validationLevel : String := "full"
  failOnUnauthorizedTf : String := "true"
  skipSignatureValidation : String := "false"
  certIdentityRegex : String := ".*"
  certIssuerRegex : String := ".*"
  insecureIgnoreTlog : String := "true"
  publicKey : String := ""
deriving DecidableEq

/-- One run's whole environment: arguments, filesystem, the json.loads outcome
for the manifest, the attestation observations, the length of
`list(cdf_path.rglob('*cdf*'))` (the reported file_count), cosign availability
on PATH, and the GITHUB_OUTPUT environment variable ("" when unset). -/
structure Env where
  args : Args
  files : List (String × String)
  metaParse : Option MetaVal
  attestations : List Attestation
  cdfGlobCount : Nat
  cosignAvailable : Bool
  githubOutput : String

/-- Everything observable about one run: reported status, the two error
counters, the process exit code, the key=value lines printed to stdout and the
ones appended to the GITHUB_OUTPUT file, the number of cosign subprocesses
launched, and the TF files printed as authorized. -/
structure Result where
  status : String
  unauthorizedErrors : Nat
  signatureErrors : Nat
  exitCode : Nat
  stdoutKV : List String
  githubKV : List String
  cosignRuns : Nat
  tfAuthorized : List String

/-- Python truthiness of an optional JSON string field: None and "" are falsy,
as in the `if not name or not expected: continue` guard. -/
def strTruthy : Option String → Option String
  | none => none
  | some s => if s = "" then none else some s

/-- Models lines 105-110: the set `meta_files` of truthy names in the
manifest's files list. The script collects it and never consults it again. -/
def metaFileNames (fl : List Entry) : List String := fl.filterMap (fun e => strTruthy e.name)

/-- Models one iteration of the hash-verification loop, lines 119-137: entries
with a falsy name or sha256 are skipped, so are the name 'cdf-meta.json' and
expected hashes starting with 'placeholder_'; otherwise a missing file or a
digest mismatch counts one unauthorized error. -/
def entryHashErrors (files : List (String × String)) (cdf : String) (e : Entry) : Nat :=
  match strTruthy e.name with
  | none => 0
  | some nm =>
    match strTruthy e.sha256 with
    | none => 0
    | some expected =>
      if nm = "cdf-meta.json" ∨ strLeads "placeholder_" expected = true then 0
      else
        match fileDigest files (pathJoin cdf nm) with
        | none => 1
        | some actual => if actual = expected then 0 else 1

/-- Total unauthorized errors contributed by the hash-verification loop. -/
def hashErrsOf (env : Env) (cdf : String) (fl : List Entry) : Nat :=
  (fl.map (fun e => entryHashErrors env.files cdf e)).sum

/-- Models lines 91-99: one unauthorized error exactly when cdf-meta.json
exists but json.loads raises. -/
def jsonErrsOf (env : Env) (cdf : String) : Nat :=
  if (fileDigest env.files (pathJoin cdf "cdf-meta.json")).isSome = true ∧ env.metaParse = none
  then 1 else 0

/-- The `meta` variable after lines 92-99: the parsed document when the file
exists and parses, otherwise the initial falsy `{}`. -/
def metaOf (env : Env) (cdf : String) : MetaVal :=
  if (fileDigest env.files (pathJoin cdf "cdf-meta.json")).isSome then
    env.metaParse.getD ⟨false, none⟩
  else ⟨false, none⟩

/-- Models the guard at line 106: `if meta and isinstance(meta.get('files'), list)`. -/
def filesGate (m : MetaVal) : Option (List Entry) := if m.truthy then m.files else none

/-- The four required attestation fields, line 184. -/
def requiredFields : List String := ["_type", "subject", "predicateType", "predicate"]

/-- Signature errors for one attestation, lines 180-219: unreadable JSON counts
one and skips the rest of the iteration; otherwise one per missing required
field, plus one for a missing .sig file (which skips cosign), plus one when
`cosign verify-blob` exits nonzero. -/
def attSigErrors (a : Attestation) : Nat :=
  if a.parses = false then 1
  else
    (requiredFields.filter (fun r => !(a.fields.contains r))).length +
      (if a.sigExists = false then 1 else if a.verifyOk = true then 0 else 1)

/-- Whether the loop body reaches the cosign subprocess for this attestation. -/
def attRunsCosign (a : Attestation) : Bool := a.parses && a.sigExists

/-- Total signature errors, lines 171-222: zero when signature validation is
skipped; one for the whole run when cosign is missing from PATH; otherwise the
sum over all attestations. -/
def sigErrsOf (env : Env) : Nat :=
  if strLower env.args.skipSignatureValidation = "true" then 0
  else if env.cosignAvailable = false then 1
  else (env.attestations.map attSigErrors).sum

/-- Number of `cosign verify-blob` subprocesses launched by the run. -/
def cosignRunsOf (env : Env) : Nat :=
  if strLower env.args.skipSignatureValidation = "true" then 0
  else if env.cosignAvailable = false then 0
  else (env.attestations.filter attRunsCosign).length

/-- The TF files printed as 'Authorized TF file', lines 112-116. The loop only
prints: it never compares the files against meta_files and never touches an
error counter. -/
def tfChecked (env : Env) (cdf : String) : List String :=
  if strLower env.args.failOnUnauthorizedTf = "true" then list_tf_files env.files cdf else []

/-- The three key=value output lines of lines 230-237. -/
def kvLines (status : String) (total fileCount : Nat) : List String :=
  ["validation_status=" ++ status,
   "error_count=" ++ toString total,
   "file_count=" ++ toString fileCount]

/-- Models lines 224-240: total, status, output channel (the GITHUB_OUTPUT file
when that variable is set and nonempty, stdout otherwise) and the exit code. -/
def finishRun (env : Env) (unauth sig runs : Nat) (tfs : List String) : Result where
  status := if unauth + sig = 0 then "passed" else "failed"
  unauthorizedErrors := unauth
  signatureErrors := sig
  exitCode := if unauth + sig > 0 then 1 else 0
  stdoutKV :=
    if env.githubOutput = "" then
      kvLines (if unauth + sig = 0 then "passed" else "failed") (unauth + sig) env.cdfGlobCount
    else []
  githubKV :=
    if env.githubOutput = "" then []
    else kvLines (if unauth + sig = 0 then "passed" else "failed") (unauth + sig) env.cdfGlobCount
  cosignRuns := runs
  tfAuthorized := tfs

/-- Lines 76-86: the 'No CDF path found to validate' branch. It prints the
three skipped lines to stdout and appends them to the file named by
GITHUB_OUTPUT (to /dev/null when unset, modelled as dropping them). -/
def skippedResult (env : Env) : Result where
  status := "skipped"
  unauthorizedErrors := 0
  signatureErrors := 0
  exitCode := 0
  stdoutKV := kvLines "skipped" 0 0
  githubKV := if env.githubOutput = "" then [] else kvLines "skipped" 0 0
  cosignRuns := 0
  tfAuthorized := []

/-- The body of `main` once a CDF path is in hand, lines 88-240. -/
def mainBody (env : Env) (cdf : String) : Result :=
  match filesGate (metaOf env cdf) with
  | none => finishRun env (jsonErrsOf env cdf) 0 0 []
  | some fl =>
    finishRun env (jsonErrsOf env cdf + hashErrsOf env cdf fl) (sigErrsOf env)
      (cosignRunsOf env) (tfChecked env cdf)

/-- Models `main`, lines 63-240. -/
def mainRun (env : Env) : Result :=
  if !pathTruthy (find_cdf_path env.files env.args.cdfPath)
      || !pathExists env.files (find_cdf_path env.files env.args.cdfPath) then
    skippedResult env
  else mainBody env (find_cdf_path env.files env.args.cdfPath)

/-- Concrete filesystem with a manifest that declares no files and one
cdf-main.tf inside a stable/ service directory. -/
def filesC1 : List (String × String) :=
  [("p/cdf-meta.json", "d0"), ("p/stable/svc/cdf-main.tf", "d1")]

/-- Concrete run: explicit CDF path p, manifest parsed to {"files": []},
an undeclared TF file on disk, signature validation skipped. -/
def envC1 : Env where
  args := { cdfPath := "p", skipSignatureValidation := "true" }
  files := filesC1
  metaParse := some ⟨true, some []⟩
  attestations := []
  cdfGlobCount := 2
  cosignAvailable := false
  githubOutput := ""

/-- Concrete filesystem holding one Terraform file with digest "aaa". -/
def filesC2 : List (String × String) := [("p/app.tf", "aaa")]

/-- Concrete run with nothing on disk and no manifest anywhere. -/
def envC3 : Env where
  args := {}
  files := []
  metaParse := none
  attestations := []
  cdfGlobCount := 0
  cosignAvailable := true
  githubOutput := ""

/-- Concrete run: the manifest file exists but json.loads raises on it. -/
def envC4 : Env where
  args := { cdfPath := "p" }
  files := [("p/cdf-meta.json", "x")]
  metaParse := none
  attestations := []
  cdfGlobCount := 1
  cosignAvailable := true
  githubOutput := ""

/-- Concrete run: signature validation requested, cosign missing from PATH,
but the manifest parses to an object with no 'files' list. -/
def envC5x : Env where
  args := { cdfPath := "p" }
  files := [("p/cdf-meta.json", "x")]
  metaParse := some ⟨true, none⟩
  attestations := []
  cdfGlobCount := 1
  cosignAvailable := false
  githubOutput := ""

/-- Concrete run: well-formed manifest with an empty files list, signature
validation requested, cosign missing from PATH. -/
def envC5w : Env where
  args := { cdfPath := "p" }
  files := [("p/cdf-meta.json", "x")]
  metaParse := some ⟨true, some []⟩
  attestations := []
  cdfGlobCount := 1
  cosignAvailable := false
  githubOutput := ""

/-- Concrete run with GITHUB_OUTPUT set to a file name. -/
def envC6 : Env where
  args := {}
  files := []
  metaParse := none
  attestations := []
  cdfGlobCount := 0
  cosignAvailable := true
  githubOutput := "out.txt"

/-- Concrete run: --skip-signature-validation TRUE (case-insensitive match),
with a well-formed manifest and an attestation whose cosign check would fail. -/
def envC7 : Env where
  args := { cdfPath := "p", skipSignatureValidation := "TRUE" }
  files := [("p/cdf-meta.json", "x")]
  metaParse := some ⟨true, some []⟩
  attestations := [⟨true, requiredFields, true, false, false⟩]
  cdfGlobCount := 1
  cosignAvailable := true
  githubOutput := ""

/-- Concrete filesystem where cdf-meta.json exists with digest "ffff". -/
def filesC8 : List (String × String) := [("q/cdf-meta.json", "ffff")]

/-- Concrete run with no explicit path and no cdf-meta.json anywhere in the
tree: the case the claim calls 'no CDF path can be resolved'. -/
def envC9 : Env where
  args := {}
  files := [("a/readme.txt", "d")]
  metaParse := none
  attestations := []
  cdfGlobCount := 0
  cosignAvailable := true
  githubOutput := ""

/-- Concrete run: the manifest parses but has no 'files' list, cosign is
missing, signature validation is not skipped, and a broken attestation is on
disk. -/
def envC10 : Env where
  args := { cdfPath := "q" }
  files := [("q/cdf-meta.json", "z")]
  metaParse := some ⟨true, none⟩
  attestations := [⟨false, [], false, false, false⟩]
  cdfGlobCount := 1
  cosignAvailable := false
  githubOutput := ""

/-- String data of an append is the append of the data. -/
theorem string_data_append (a b : String) : (a ++ b).data = a.data ++ b.data := by
  cases a; cases b; rfl

/-- Character data of the one-character slash string. -/
theorem slash_data : ("/" : String).data = ['/'] := rfl

/-- The head of a non-empty dropWhile result falsifies the predicate. -/
theorem dropWhile_head_false {α : Type} (q : α → Bool) (l : List α) (c : α) (cs : List α)
    (h : List.dropWhile q l = c :: cs) : q c = false := by
  induction l with
  | nil => simp [List.dropWhile] at h
  | cons a as ih =>
    rw [List.dropWhile_cons] at h
    split at h
    · exact ih h
    · cases h; simp_all

/-- Recomposition of a path that contains a slash around its last slash. -/
theorem dirOf_spec (p : String) (h : dirOf p ≠ "") :
    p.data = (dirOf p).data ++ '/' :: (baseOf p).data := by
  cases hd : p.data.reverse.dropWhile (fun c => c != '/') with
  | nil =>
    exfalso
    apply h
    show String.mk (((p.data.reverse.dropWhile (fun c => c != '/')).drop 1).reverse) = ""
    rw [hd]
    rfl
  | cons c cs =>
    have hc : (c != '/') = false :=
      dropWhile_head_false (fun c => c != '/') p.data.reverse c cs hd
    have hc' : c = '/' := by simpa using hc
    have hsplit : p.data.reverse.takeWhile (fun c => c != '/') ++
        p.data.reverse.dropWhile (fun c => c != '/') = p.data.reverse :=
      List.takeWhile_append_dropWhile _ _
    have h2 : p.data
        = cs.reverse ++ c :: (p.data.reverse.takeWhile (fun c => c != '/')).reverse := by
      conv_lhs => rw [← List.reverse_reverse p.data, ← hsplit, hd]
      simp [List.reverse_append]
    rw [h2, hc']
    show cs.reverse ++ '/' :: _ = (dirOf p).data ++ '/' :: (baseOf p).data
    unfold dirOf baseOf
    rw [hd]
    rfl

/-- A string followed by a slash leads any string whose data extends it past a
slash. -/
theorem strLeads_of_data (s t : String) (u : List Char) (h : t.data = s.data ++ '/' :: u) :
    strLeads (s ++ "/") t = true := by
  unfold strLeads
  rw [List.isPrefixOf_iff_prefix, string_data_append, slash_data, h]
  exact ⟨u, by simp⟩

/-- The parent directory of any file present in the model exists. -/
theorem pathExists_parent (files : List (String × String)) (q : String × String)
    (hq : q ∈ files) : pathExists files (parentOf q.1) = true := by
  unfold parentOf
  split
  · simp [pathExists]
  · rename_i h
    have hrec := dirOf_spec q.1 h
    have hlead : strLeads (dirOf q.1 ++ "/") q.1 = true := strLeads_of_data _ _ _ hrec
    simp only [pathExists, Bool.or_eq_true, List.any_eq_true]
    exact Or.inr ⟨q, hq, hlead⟩

/-- The path find_cdf_path resolves always exists in the model: the Python
failure sentinel Path('') is PosixPath('.'), which exists, and every success
case returns a directory that holds an existing file. Together with pathTruthy
this makes the 'No CDF path found' branch of main dead code. -/
theorem pathExists_find_cdf_path (files : List (String × String)) (explicit : String) :
    pathExists files (find_cdf_path files explicit) = true := by
  unfold find_cdf_path
  split
  · split
    · rename_i q hq
      exact pathExists_parent files q (List.mem_of_find?_eq_some hq)
    · simp [pathExists]
  · rename_i hne
    split
    · rename_i hsome
      by_cases hdot : explicit = "."
      · subst hdot; simp [pathExists]
      · unfold fileDigest at hsome
        cases hfind : files.find? (fun q => q.1 == pathJoin explicit "cdf-meta.json") with
        | none => rw [hfind] at hsome; simp at hsome
        | some q =>
          have hmem := List.mem_of_find?_eq_some hfind
          have hq1 : q.1 = pathJoin explicit "cdf-meta.json" := by
            simpa using List.find?_some hfind
          have hdata : q.1.data = explicit.data ++ '/' :: ("cdf-meta.json" : String).data := by
            rw [hq1]
            unfold pathJoin
            rw [if_neg hdot, string_data_append, string_data_append, slash_data]
            simp
          have hlead := strLeads_of_data explicit q.1 _ hdata
          simp only [pathExists, Bool.or_eq_true, List.any_eq_true]
          exact Or.inr ⟨q, hmem, hlead⟩
    · split
      · rename_i hcond
        rw [Bool.and_eq_true] at hcond
        have hfile := hcond.1
        unfold fileDigest at hfile
        cases hfind : files.find? (fun q => q.1 == explicit) with
        | none => rw [hfind] at hfile; simp at hfile
        | some q =>
          have hmem := List.mem_of_find?_eq_some hfind
          have hq1 : q.1 = explicit := by simpa using List.find?_some hfind
          rw [← hq1]
          exact pathExists_parent files q hmem
      · simp [pathExists]

/-- The skipped branch never runs: main always proceeds with the resolved path. -/
theorem mainRun_eq (env : Env) :
    mainRun env = mainBody env (find_cdf_path env.files env.args.cdfPath) := by
  unfold mainRun
  rw [pathExists_find_cdf_path]
  rfl

/-- Status field of finishRun. -/
theorem finishRun_status (env : Env) (u s r : Nat) (t : List String) :
    (finishRun env u s r t).status = if u + s = 0 then "passed" else "failed" := rfl

/-- Unauthorized-error field of finishRun. -/
theorem finishRun_unauthorized (env : Env) (u s r : Nat) (t : List String) :
    (finishRun env u s r t).unauthorizedErrors = u := rfl

/-- Signature-error field of finishRun. -/
theorem finishRun_signature (env : Env) (u s r : Nat) (t : List String) :
    (finishRun env u s r t).signatureErrors = s := rfl

/-- Exit-code field of finishRun. -/
theorem finishRun_exit (env : Env) (u s r : Nat) (t : List String) :
    (finishRun env u s r t).exitCode = if u + s > 0 then 1 else 0 := rfl

/-- Stdout lines of finishRun. -/
theorem finishRun_stdout (env : Env) (u s r : Nat) (t : List String) :
    (finishRun env u s r t).stdoutKV =
      if env.githubOutput = "" then
        kvLines (if u + s = 0 then "passed" else "failed") (u + s) env.cdfGlobCount
      else [] := rfl

/-- GITHUB_OUTPUT lines of finishRun. -/
theorem finishRun_github (env : Env) (u s r : Nat) (t : List String) :
    (finishRun env u s r t).githubKV =
      if env.githubOutput = "" then []
      else kvLines (if u + s = 0 then "passed" else "failed") (u + s) env.cdfGlobCount := rfl

/-- Cosign-run counter of finishRun. -/
theorem finishRun_cosign (env : Env) (u s r : Nat) (t : List String) :
    (finishRun env u s r t).cosignRuns = r := rfl

/-- Authorized-TF field of finishRun. -/
theorem finishRun_tf (env : Env) (u s r : Nat) (t : List String) :
    (finishRun env u s r t).tfAuthorized = t := rfl

/-- The status string computed at line 225 is 'passed' exactly on zero total. -/
theorem passed_iff (u s : Nat) :
    ((if u + s = 0 then "passed" else "failed") = "passed") ↔ u + s = 0 := by
  split
  · rename_i h; simp [h]
  · rename_i h
    constructor
    · intro hf; exact absurd hf (by decide)
    · intro h0; exact absurd h0 h

/-- The status string computed at line 225 is 'failed' exactly on nonzero total. -/
theorem failed_iff (u s : Nat) :
    ((if u + s = 0 then "passed" else "failed") = "failed") ↔ u + s ≠ 0 := by
  split
  · rename_i h
    constructor
    · intro hf; exact absurd hf (by decide)
    · intro h0; exact absurd h h0
  · rename_i h; simp [h]

/-- Every run of main produces a finishRun result with some counter values. -/
theorem mainRun_as_finishRun (env : Env) :
    ∃ u s r t, mainRun env = finishRun env u s r t := by
  rw [mainRun_eq]
  unfold mainBody
  cases filesGate (metaOf env (find_cdf_path env.files env.args.cdfPath)) with
  | none => exact ⟨_, _, _, _, rfl⟩
  | some fl => exact ⟨_, _, _, _, rfl⟩

/-- The body of main when the manifest gate at line 106 is closed. -/
theorem mainBody_gate_none (env : Env) (cdf : String)
    (h : filesGate (metaOf env cdf) = none) :
    mainBody env cdf = finishRun env (jsonErrsOf env cdf) 0 0 [] := by
  unfold mainBody
  rw [h]

/-- The body of main when the manifest gate at line 106 is open. -/
theorem mainBody_gate_some (env : Env) (cdf : String) (fl : List Entry)
    (h : filesGate (metaOf env cdf) = some fl) :
    mainBody env cdf = finishRun env (jsonErrsOf env cdf + hashErrsOf env cdf fl)
      (sigErrsOf env) (cosignRunsOf env) (tfChecked env cdf) := by
  unfold mainBody
  rw [h]

/-- strTruthy of a missing field. -/
theorem strTruthy_none : strTruthy none = none := rfl

/-- strTruthy of an empty string: falsy in Python. -/
theorem strTruthy_empty : strTruthy (some "") = none := rfl

/-- strTruthy of a non-empty string. -/
theorem strTruthy_some (s : String) (h : s ≠ "") : strTruthy (some s) = some s := by
  show (if s = "" then none else some s) = some s
  rw [if_neg h]

/-- C1: the claim says a cdf-main.tf present under a stable/ service directory
but not declared in the manifest's files list makes the validator count an
unauthorized error, report validation_status 'failed' and exit 1. In this
concrete run the walker finds exactly such an undeclared file and the
fail-on-unauthorized-tf flag is on, yet the run counts zero unauthorized
errors, reports 'passed' and exits 0: the loop at lines 112-116 only prints
each file as authorized, and the collected meta_files set is never consulted. -/
theorem c1_undeclared_tf_not_flagged :
    list_tf_files filesC1 "p" = ["stable/svc/cdf-main.tf"] ∧
    metaFileNames [] = [] ∧
    strLower envC1.args.failOnUnauthorizedTf = "true" ∧
    (mainRun envC1).tfAuthorized = ["stable/svc/cdf-main.tf"] ∧
    (mainRun envC1).unauthorizedErrors = 0 ∧
    (mainRun envC1).status = "passed" ∧
    (mainRun envC1).exitCode = 0 := by
  decide

/-- C2 counterexample: this manifest entry has both a name and a sha256, and
the named file does not exist under the CDF path, yet the hash loop counts
zero errors for it rather than the claimed one, because the name is
'cdf-meta.json'. -/
theorem c2_counterexample :
    ((⟨some "cdf-meta.json", some "deadbeef"⟩ : Entry).name = some "cdf-meta.json") ∧
    ((⟨some "cdf-meta.json", some "deadbeef"⟩ : Entry).sha256 = some "deadbeef") ∧
    fileDigest [] (pathJoin "p" "cdf-meta.json") = none ∧
    entryHashErrors [] "p" ⟨some "cdf-meta.json", some "deadbeef"⟩ = 0 := by
  refine ⟨rfl, rfl, rfl, ?_⟩
  decide

/-- C2 (amended): for a manifest entry with a truthy name other than
'cdf-meta.json' and a truthy sha256 that does not start with 'placeholder_',
a missing file counts exactly one unauthorized error, a digest mismatch counts
exactly one, and a matching digest counts none. -/
theorem c2_hash_verification (files : List (String × String)) (cdf : String)
    (e : Entry) (nm expected : String)
    (hn : e.name = some nm) (hsh : e.sha256 = some expected)
    (hn0 : nm ≠ "") (hs0 : expected ≠ "")
    (hnm : nm ≠ "cdf-meta.json") (hpl : strLeads "placeholder_" expected = false) :
    (fileDigest files (pathJoin cdf nm) = none → entryHashErrors files cdf e = 1) ∧
    (∀ actual, fileDigest files (pathJoin cdf nm) = some actual →
      entryHashErrors files cdf e = if actual = expected then 0 else 1) := by
  have hcond : ¬ (nm = "cdf-meta.json" ∨ strLeads "placeholder_" expected = true) := by
    rintro (hc | hc)
    · exact hnm hc
    · rw [hpl] at hc
      exact Bool.false_ne_true hc
  simp only [entryHashErrors, hn, hsh, strTruthy_some nm hn0, strTruthy_some expected hs0]
  rw [if_neg hcond]
  constructor
  · intro hnone
    rw [hnone]
  · intro actual hsome
    rw [hsome]

/-- C2 witness: a declared file present on disk with a different digest counts
exactly one unauthorized error. -/
theorem c2_hash_verification_witness :
    ("app.tf" : String) ≠ "" ∧ ("bbb" : String) ≠ "" ∧
    ("app.tf" : String) ≠ "cdf-meta.json" ∧
    strLeads "placeholder_" "bbb" = false ∧
    entryHashErrors filesC2 "p" ⟨some "app.tf", some "bbb"⟩ = 1 := by
  refine ⟨by decide, by decide, by decide, by decide, ?_⟩
  have h := (c2_hash_verification filesC2 "p" ⟨some "app.tf", some "bbb"⟩ "app.tf" "bbb"
      rfl rfl (by decide) (by decide) (by decide) (by decide)).2 "aaa" (by decide)
  rw [h]
  decide

/-- C3: a run exits 0 exactly when the sum of unauthorized and signature
errors is zero, and exits 1 exactly when that sum is positive. -/
theorem c3_exit_code (env : Env) :
    ((mainRun env).exitCode = 0 ↔
      (mainRun env).unauthorizedErrors + (mainRun env).signatureErrors = 0) ∧
    ((mainRun env).exitCode = 1 ↔
      0 < (mainRun env).unauthorizedErrors + (mainRun env).signatureErrors) := by
  obtain ⟨u, s, r, t, h⟩ := mainRun_as_finishRun env
  rw [h, finishRun_exit, finishRun_unauthorized, finishRun_signature]
  constructor
  · split <;> omega
  · split <;> omega

/-- C3 witness at a concrete run. -/
theorem c3_exit_code_witness :
    (mainRun envC3).exitCode = 0 ↔
      (mainRun envC3).unauthorizedErrors + (mainRun envC3).signatureErrors = 0 :=
  (c3_exit_code envC3).1

/-- C4: when cdf-meta.json exists but json.loads raises on it, the run does
not abort: it counts exactly one error (the unauthorized invalid-JSON one and
nothing else), still emits the three key=value lines with status 'failed', and
leaves through the normal exit path with code 1. -/
theorem c4_invalid_manifest_json (env : Env)
    (h1 : (fileDigest env.files
        (pathJoin (find_cdf_path env.files env.args.cdfPath) "cdf-meta.json")).isSome = true)
    (h2 : env.metaParse = none) :
    (mainRun env).unauthorizedErrors = 1 ∧
    (mainRun env).signatureErrors = 0 ∧
    (mainRun env).status = "failed" ∧
    (mainRun env).exitCode = 1 ∧
    (if env.githubOutput = "" then (mainRun env).stdoutKV else (mainRun env).githubKV)
      = kvLines "failed" 1 env.cdfGlobCount := by
  have hmeta : metaOf env (find_cdf_path env.files env.args.cdfPath) = ⟨false, none⟩ := by
    unfold metaOf
    rw [if_pos h1, h2]
    rfl
  have hgate : filesGate (metaOf env (find_cdf_path env.files env.args.cdfPath)) = none := by
    rw [hmeta]
    rfl
  have hjson : jsonErrsOf env (find_cdf_path env.files env.args.cdfPath) = 1 := by
    unfold jsonErrsOf
    rw [if_pos ⟨h1, h2⟩]
  rw [mainRun_eq, mainBody_gate_none env _ hgate, hjson]
  refine ⟨rfl, rfl, rfl, rfl, ?_⟩
  by_cases hg : env.githubOutput = ""
  · rw [if_pos hg, finishRun_stdout, if_pos hg]
    rfl
  · rw [if_neg hg, finishRun_github, if_neg hg]
    rfl

/-- C4 witness: the hypotheses hold and the conclusion follows at envC4. -/
theorem c4_invalid_manifest_json_witness :
    (fileDigest envC4.files
        (pathJoin (find_cdf_path envC4.files envC4.args.cdfPath) "cdf-meta.json")).isSome
      = true ∧
    envC4.metaParse = none ∧
    (mainRun envC4).unauthorizedErrors = 1 ∧ (mainRun envC4).exitCode = 1 :=
  ⟨by decide, rfl, (c4_invalid_manifest_json envC4 (by decide) rfl).1,
    (c4_invalid_manifest_json envC4 (by decide) rfl).2.2.2.1⟩

/-- C5 counterexample: signature validation is not skipped (the flag is the
default 'false') and cosign is absent from PATH, yet the run counts zero
signature errors rather than the claimed one, because the manifest parsed to
an object without a 'files' list and the whole signature section sits behind
the manifest gate. -/
theorem c5_counterexample :
    strLower envC5x.args.skipSignatureValidation = "false" ∧
    envC5x.cosignAvailable = false ∧
    (mainRun envC5x).signatureErrors = 0 := by
  refine ⟨by decide, rfl, ?_⟩
  decide

/-- C5 (amended): when signature validation is not skipped and the manifest
parses to a truthy object with a 'files' list, a cosign missing from PATH
counts exactly one signature error for the whole run; with cosign available,
signature errors are the sum over all attestations, where unreadable JSON,
each missing required field, a missing .sig file and a failing cosign
verification each contribute at least one; none of this touches the
unauthorized counter, which stays the hash-loop sum. -/
theorem c5_signature_errors (env : Env) (m : MetaVal) (fl : List Entry)
    (hskip : strLower env.args.skipSignatureValidation ≠ "true")
    (hex : (fileDigest env.files
        (pathJoin (find_cdf_path env.files env.args.cdfPath) "cdf-meta.json")).isSome = true)
    (hm : env.metaParse = some m) (ht : m.truthy = true) (hf : m.files = some fl) :
    (env.cosignAvailable = false → (mainRun env).signatureErrors = 1) ∧
    (env.cosignAvailable = true →
      (mainRun env).signatureErrors = (env.attestations.map attSigErrors).sum) ∧
    (∀ a : Attestation, a.parses = false → 1 ≤ attSigErrors a) ∧
    (∀ a : Attestation, a.parses = true → a.sigExists = false → 1 ≤ attSigErrors a) ∧
    (∀ a : Attestation, a.parses = true → a.sigExists = true → a.verifyOk = false →
      1 ≤ attSigErrors a) ∧
    (∀ a : Attestation, ∀ r ∈ requiredFields, a.parses = true →
      a.fields.contains r = false → 1 ≤ attSigErrors a) ∧
    (mainRun env).unauthorizedErrors
      = hashErrsOf env (find_cdf_path env.files env.args.cdfPath) fl := by
  have hmeta : metaOf env (find_cdf_path env.files env.args.cdfPath) = m := by
    unfold metaOf
    rw [if_pos hex, hm]
    rfl
  have hgate : filesGate (metaOf env (find_cdf_path env.files env.args.cdfPath)) = some fl := by
    rw [hmeta]
    unfold filesGate
    rw [if_pos ht, hf]
  have hjson : jsonErrsOf env (find_cdf_path env.files env.args.cdfPath) = 0 := by
    unfold jsonErrsOf
    rw [if_neg]
    rintro ⟨-, h2⟩
    rw [hm] at h2
    exact Option.noConfusion h2
  rw [mainRun_eq, mainBody_gate_some env _ fl hgate]
  refine ⟨?_, ?_, ?_, ?_, ?_, ?_, ?_⟩
  · intro hc
    rw [finishRun_signature]
    unfold sigErrsOf
    rw [if_neg hskip, if_pos hc]
  · intro hc
    rw [finishRun_signature]
    unfold sigErrsOf
    rw [if_neg hskip, if_neg (by simp [hc])]
  · intro a hp
    unfold attSigErrors
    rw [if_pos hp]
  · intro a hp hs
    unfold attSigErrors
    rw [if_neg (by simp [hp]), if_pos hs]
    exact Nat.le_add_left 1 _
  · intro a hp hs hv
    unfold attSigErrors
    rw [if_neg (by simp [hp]), if_neg (by simp [hs]), if_neg (by simp [hv])]
    exact Nat.le_add_left 1 _
  · intro a r hr hp hcont
    unfold attSigErrors
    rw [if_neg (by simp [hp])]
    have hmem : r ∈ requiredFields.filter (fun r => !(a.fields.contains r)) :=
      List.mem_filter.mpr ⟨hr, by rw [hcont]; rfl⟩
    have hpos : 0 < (requiredFields.filter (fun r => !(a.fields.contains r))).length :=
      List.length_pos.mpr (List.ne_nil_of_mem hmem)
    omega
  · rw [finishRun_unauthorized, hjson, Nat.zero_add]

/-- C5 witness: with a well-formed manifest, signature validation on and
cosign missing, the run counts exactly one signature error. -/
theorem c5_signature_errors_witness :
    strLower envC5w.args.skipSignatureValidation = "false" ∧
    envC5w.cosignAvailable = false ∧
    (mainRun envC5w).signatureErrors = 1 :=
  ⟨by decide, rfl,
    (c5_signature_errors envC5w ⟨true, some []⟩ [] (by decide) (by decide) rfl rfl rfl).1 rfl⟩

/-- C6: every run emits exactly the three key=value lines validation_status,
error_count and file_count, to the file named by GITHUB_OUTPUT when that
variable is set and nonempty and to stdout otherwise; error_count is the sum
of the two error counters and validation_status is 'passed' exactly when that
sum is zero and 'failed' otherwise. (The 'skipped' branch of main, which would
write to both channels, is dead code: see pathExists_find_cdf_path.) -/
theorem c6_output_lines (env : Env) :
    (if env.githubOutput = "" then
      (mainRun env).stdoutKV =
        ["validation_status=" ++ (mainRun env).status,
         "error_count="
           ++ toString ((mainRun env).unauthorizedErrors + (mainRun env).signatureErrors),
         "file_count=" ++ toString env.cdfGlobCount] ∧
      (mainRun env).githubKV = []
    else
      (mainRun env).githubKV =
        ["validation_status=" ++ (mainRun env).status,
         "error_count="
           ++ toString ((mainRun env).unauthorizedErrors + (mainRun env).signatureErrors),
         "file_count=" ++ toString env.cdfGlobCount] ∧
      (mainRun env).stdoutKV = []) ∧
    ((mainRun env).status = "passed" ↔
      (mainRun env).unauthorizedErrors + (mainRun env).signatureErrors = 0) ∧
    ((mainRun env).status = "failed" ↔
      (mainRun env).unauthorizedErrors + (mainRun env).signatureErrors ≠ 0) := by
  obtain ⟨u, s, r, t, h⟩ := mainRun_as_finishRun env
  rw [h, finishRun_status, finishRun_unauthorized, finishRun_signature,
    finishRun_stdout, finishRun_github]
  refine ⟨?_, passed_iff u s, failed_iff u s⟩
  by_cases hg : env.githubOutput = ""
  · rw [if_pos hg]
    constructor
    · rw [if_pos hg]
      rfl
    · rw [if_pos hg]
  · rw [if_neg hg]
    constructor
    · rw [if_neg hg]
      rfl
    · rw [if_neg hg]

/-- C6 witness at a concrete run with GITHUB_OUTPUT set. -/
theorem c6_output_lines_witness :
    (mainRun envC6).status = "passed" ↔
      (mainRun envC6).unauthorizedErrors + (mainRun envC6).signatureErrors = 0 :=
  (c6_output_lines envC6).2.1

/-- C7: with --skip-signature-validation equal to 'true' case-insensitively,
no cosign subprocess is launched and the signature error count is zero, so the
verdict depends only on the manifest and hash checks. -/
theorem c7_skip_signature (env : Env)
    (h : strLower env.args.skipSignatureValidation = "true") :
    (mainRun env).signatureErrors = 0 ∧
    (mainRun env).cosignRuns = 0 ∧
    ((mainRun env).status = "passed" ↔ (mainRun env).unauthorizedErrors = 0) := by
  rw [mainRun_eq]
  cases hg : filesGate (metaOf env (find_cdf_path env.files env.args.cdfPath)) with
  | none =>
    rw [mainBody_gate_none env _ hg]
    refine ⟨rfl, rfl, ?_⟩
    rw [finishRun_status, finishRun_unauthorized]
    have hp := passed_iff (jsonErrsOf env (find_cdf_path env.files env.args.cdfPath)) 0
    rw [Nat.add_zero] at hp
    exact hp
  | some fl =>
    have hs : sigErrsOf env = 0 := by
      unfold sigErrsOf
      rw [if_pos h]
    have hr : cosignRunsOf env = 0 := by
      unfold cosignRunsOf
      rw [if_pos h]
    rw [mainBody_gate_some env _ fl hg, hs, hr]
    refine ⟨rfl, rfl, ?_⟩
    rw [finishRun_status, finishRun_unauthorized]
    have hp := passed_iff
      (jsonErrsOf env (find_cdf_path env.files env.args.cdfPath)
        + hashErrsOf env (find_cdf_path env.files env.args.cdfPath) fl) 0
    rw [Nat.add_zero] at hp
    exact hp

/-- C7 witness: the skip flag spelled 'TRUE' still suppresses everything. -/
theorem c7_skip_signature_witness :
    strLower envC7.args.skipSignatureValidation = "true" ∧
    (mainRun envC7).signatureErrors = 0 ∧ (mainRun envC7).cosignRuns = 0 :=
  ⟨by decide, (c7_skip_signature envC7 (by decide)).1, (c7_skip_signature envC7 (by decide)).2.1⟩

/-- C8: hash verification never counts an error for an entry lacking a truthy
name, lacking a truthy sha256, named 'cdf-meta.json', or whose recorded hash
starts with 'placeholder_', whatever the disk contents are. -/
theorem c8_exempt_entries (files : List (String × String)) (cdf : String) (e : Entry)
    (h : e.name = none ∨ e.name = some "" ∨ e.sha256 = none ∨ e.sha256 = some "" ∨
      e.name = some "cdf-meta.json" ∨
      ∃ s, e.sha256 = some s ∧ strLeads "placeholder_" s = true) :
    entryHashErrors files cdf e = 0 := by
  rcases h with h | h | h | h | h | ⟨s, hs, hpl⟩
  · simp only [entryHashErrors, h, strTruthy_none]
  · simp only [entryHashErrors, h, strTruthy_empty]
  · cases hn : strTruthy e.name with
    | none => simp only [entryHashErrors, hn]
    | some nm => simp only [entryHashErrors, hn, h, strTruthy_none]
  · cases hn : strTruthy e.name with
    | none => simp only [entryHashErrors, hn]
    | some nm => simp only [entryHashErrors, hn, h, strTruthy_empty]
  · simp only [entryHashErrors, h, strTruthy_some "cdf-meta.json" (by decide)]
    cases hs2 : strTruthy e.sha256 with
    | none => rfl
    | some exp => simp
  · cases hn : strTruthy e.name with
    | none => simp only [entryHashErrors, hn]
    | some nm =>
      by_cases hse : s = ""
      · simp only [entryHashErrors, hn, hs, hse, strTruthy_empty]
      · simp [entryHashErrors, hn, hs, strTruthy_some s hse, hpl]

/-- C8 witness: the 'cdf-meta.json' entry with a wrong recorded hash and a
different digest on disk still contributes zero errors. -/
theorem c8_exempt_entries_witness :
    ((⟨some "cdf-meta.json", some "0000"⟩ : Entry).name = some "cdf-meta.json") ∧
    fileDigest filesC8 (pathJoin "q" "cdf-meta.json") = some "ffff" ∧
    entryHashErrors filesC8 "q" ⟨some "cdf-meta.json", some "0000"⟩ = 0 :=
  ⟨rfl, by decide, c8_exempt_entries filesC8 "q" _
    (Or.inr (Or.inr (Or.inr (Or.inr (Or.inl rfl)))))⟩

/-- C9: the claim says a run with no resolvable CDF path (no explicit path
holding cdf-meta.json and none found by search) reports
validation_status=skipped. In this concrete run nothing on disk is named
cdf-meta.json and no explicit path is given, yet find_cdf_path yields '.'
(Path('') is PosixPath('.')), which is truthy (paths have no __bool__) and
exists, so the skipped branch is bypassed and the run validates '.' instead,
reporting validation_status=passed with exit code 0. -/
theorem c9_no_cdf_path_still_validates :
    find_cdf_path envC9.files envC9.args.cdfPath = "." ∧
    pathTruthy "." = true ∧
    pathExists envC9.files "." = true ∧
    (mainRun envC9).status = "passed" ∧
    (mainRun envC9).exitCode = 0 ∧
    (mainRun envC9).stdoutKV = kvLines "passed" 0 0 := by
  decide

/-- C10: when the manifest is absent, unparseable, or does not carry a 'files'
list, no hash or signature checks run: no cosign subprocess is launched, no TF
files are listed, the signature error count is zero, and the unauthorized
count is exactly the invalid-JSON indicator, so the run's total is at most
one. -/
theorem c10_manifest_gate (env : Env)
    (h : fileDigest env.files
        (pathJoin (find_cdf_path env.files env.args.cdfPath) "cdf-meta.json") = none ∨
      env.metaParse = none ∨
      ∃ m, env.metaParse = some m ∧ (m.truthy = false ∨ m.files = none)) :
    (mainRun env).signatureErrors = 0 ∧
    (mainRun env).cosignRuns = 0 ∧
    (mainRun env).tfAuthorized = [] ∧
    (mainRun env).unauthorizedErrors
      = jsonErrsOf env (find_cdf_path env.files env.args.cdfPath) ∧
    (mainRun env).unauthorizedErrors + (mainRun env).signatureErrors ≤ 1 := by
  have hgate : filesGate (metaOf env (find_cdf_path env.files env.args.cdfPath)) = none := by
    rcases h with h | h | ⟨m, hm, hmf⟩
    · simp [filesGate, metaOf, h]
    · by_cases hex : (fileDigest env.files
          (pathJoin (find_cdf_path env.files env.args.cdfPath) "cdf-meta.json")).isSome = true
      · simp [filesGate, metaOf, hex, h]
      · simp [filesGate, metaOf, hex]
    · rcases hmf with ht | hf
      · by_cases hex : (fileDigest env.files
            (pathJoin (find_cdf_path env.files env.args.cdfPath) "cdf-meta.json")).isSome = true
        · simp [filesGate, metaOf, hex, hm, ht]
        · simp [filesGate, metaOf, hex]
      · by_cases hex : (fileDigest env.files
            (pathJoin (find_cdf_path env.files env.args.cdfPath) "cdf-meta.json")).isSome = true
        · by_cases htr : m.truthy = true
          · simp [filesGate, metaOf, hex, hm, hf, htr]
          · simp [filesGate, metaOf, hex, hm, htr]
        · simp [filesGate, metaOf, hex]
  rw [mainRun_eq, mainBody_gate_none env _ hgate]
  refine ⟨rfl, rfl, rfl, rfl, ?_⟩
  rw [finishRun_unauthorized, finishRun_signature]
  unfold jsonErrsOf
  split <;> omega

/-- C10 witness: manifest without a 'files' list, cosign missing, a broken
attestation on disk: still zero signature errors and no cosign launched. -/
theorem c10_manifest_gate_witness :
    envC10.metaParse = some ⟨true, none⟩ ∧
    (mainRun envC10).signatureErrors = 0 ∧ (mainRun envC10).cosignRuns = 0 :=
  ⟨rfl, (c10_manifest_gate envC10 (Or.inr (Or.inr ⟨⟨true, none⟩, rfl, Or.inr rfl⟩))).1,
    (c10_manifest_gate envC10 (Or.inr (Or.inr ⟨⟨true, none⟩, rfl, Or.inr rfl⟩))).2.1⟩
